import Mathlib

/-!
Verification of the heat-equation notebook main_diffusion_CR.ipynb
(backward Euler in time, Crouzeix-Raviart finite elements in space,
on the rectangle (0,2) x (0,2), driven by a while loop over time).

The notebook is a thin orchestration layer over an external FEM library:
it builds a mesh, a function space, a boundary condition, UFL weak-form
expressions, assembles a matrix once, and then loops over time steps,
each step reassembling the right-hand side, solving, updating the
previous solution and writing one animation frame.

The embedding below follows the notebook cell by cell:
  - scalar constants (t, T, num_steps, dt) become rationals (the claims
    about the loop are stated in exact arithmetic);
  - UFL form expressions become a small expression AST (ScalarExpr,
    Form) with a quadrature-style semantics evalForm;
  - the external library calls become fields of a record Lib (and, for
    the error-propagation claim, LibE whose fallible calls return
    Except); the notebook's own code is the glue proved about;
  - the time loop becomes runLoop, defined by well-founded recursion on
    the number of remaining steps, exactly mirroring "while t < T".
-/

namespace HeatCR

/-! ## Temporal parameters (cell "Define temporal parameters") -/

/-- Final time, from the source: T = 3.0. -/
def T : ℚ := 3

/-- Number of time steps, from the source: num_steps = 200. -/
def num_steps : ℕ := 200

/-- Time step, from the source: dt = T / num_steps. -/
def dt : ℚ := T / num_steps

/-! ## Mesh and function space (cell "Create the mesh ...") -/

/-- Cell types that mesh.create_rectangle accepts; the source uses triangle. -/
inductive CellType where
  | triangle
  | quadrilateral
deriving DecidableEq

/-- Arguments of mesh.create_rectangle: corner points, subdivisions, cell type. -/
structure MeshSpec where
  p0x : ℚ
  p0y : ℚ
  p1x : ℚ
  p1y : ℚ
  nx : ℕ
  ny : ℕ
  cell : CellType
deriving DecidableEq

/-- The mesh built by the source:
create_rectangle(COMM, [[0,0],[2,2]], [64,64], triangle). -/
def domain : MeshSpec :=
  { p0x := 0, p0y := 0, p1x := 2, p1y := 2, nx := 64, ny := 64,
    cell := CellType.triangle }

/-- Finite element families; the source requests "CR" (Crouzeix-Raviart). -/
inductive FamilyKind where
  | CR
  | Lagrange
deriving DecidableEq

/-- Arguments of fem.functionspace: the mesh and the (family, degree) pair. -/
structure SpaceSpec where
  mesh : MeshSpec
  family : FamilyKind
  degree : ℕ
deriving DecidableEq

/-- The function space built by the source: V = functionspace(domain, ("CR", 1)). -/
def V : SpaceSpec := { mesh := domain, family := FamilyKind.CR, degree := 1 }

/-! ## Boundary condition (cell "Determine the dimension ...") -/

/-- Topological dimension of the mesh: the source mesh is a 2D triangle
mesh, so domain.topology.dim = 2. -/
def tdim : ℕ := 2

/-- The entity dimension the source actually computes:
fdim = domain.topology.dim - 2 (written in ℤ, as the subtraction is free). -/
def fdim : ℤ := (tdim : ℤ) - 2

/-- The boundary-facet dimension the spec and the source's own comment
describe: one less than the topological dimension of the mesh. -/
def facetDimOfSpec : ℤ := (tdim : ℤ) - 1

/-- The data of fem.dirichletbc as the source builds it: the prescribed
value and the dimension of the entities passed to
locate_entities_boundary / locate_dofs_topological. -/
structure BCSpec where
  value : ℚ
  entityDim : ℤ
deriving DecidableEq

/-- The boundary condition of the source:
bc = dirichletbc(ScalarType(0), locate_dofs_topological(V, fdim, boundary_facets), V). -/
def bc : BCSpec := { value := 0, entityDim := fdim }

/-- Number of Crouzeix-Raviart degrees of freedom attached to a single
mesh entity of the given dimension: CR degrees of freedom sit at edge
midpoints (dimension-1 entities) only. -/
def crDofsPerEntity (d : ℤ) : ℕ := if d = 1 then 1 else 0

/-! ## Weak-form expressions (cells defining a and L)

The source builds UFL expressions
  a = u * v * dx + dt * dot(grad(u), grad(v)) * dx
  L = (u_n + dt * f) * v * dx
with u = TrialFunction(V), v = TestFunction(V), and coefficients u_n, f.
We embed these as a small AST. -/

/-- The two coefficient functions appearing in the forms. -/
inductive Coeff where
  | uPrev
  | source
deriving DecidableEq

/-- Vector-valued subexpressions: gradients of trial/test functions. -/
inductive VecExpr where
  | gradTrial
  | gradTest
deriving DecidableEq

/-- Scalar subexpressions of an integrand. -/
inductive ScalarExpr where
  | trial
  | test
  | coeff (c : Coeff)
  | const (q : ℚ)
  | add (x y : ScalarExpr)
  | mul (x y : ScalarExpr)
  | dot (x y : VecExpr)
deriving DecidableEq

/-- A form: a sum of integrals, possibly scaled by constants. -/
inductive Form where
  | integral (e : ScalarExpr)
  | add (x y : Form)
  | smul (q : ℚ) (x : Form)
deriving DecidableEq

/-- The bilinear form of the source, written exactly as the code writes it:
a = u * v * dx  +  (dt * dot(grad u, grad v)) * dx. -/
def aForm : Form :=
  Form.add (Form.integral (ScalarExpr.mul ScalarExpr.trial ScalarExpr.test))
    (Form.integral (ScalarExpr.mul (ScalarExpr.const dt)
      (ScalarExpr.dot VecExpr.gradTrial VecExpr.gradTest)))

/-- The bilinear form as the claim words it:
integral(u * v) + dt * integral(grad u . grad v). -/
def aFormOfClaim : Form :=
  Form.add (Form.integral (ScalarExpr.mul ScalarExpr.trial ScalarExpr.test))
    (Form.smul dt
      (Form.integral (ScalarExpr.dot VecExpr.gradTrial VecExpr.gradTest)))

/-- The linear form of the source: L = (u_n + dt * f) * v * dx. -/
def Lform : Form :=
  Form.integral (ScalarExpr.mul
    (ScalarExpr.add (ScalarExpr.coeff Coeff.uPrev)
      (ScalarExpr.mul (ScalarExpr.const dt) (ScalarExpr.coeff Coeff.source)))
    ScalarExpr.test)

/-- The linear form as the claim words it: integral((u_n + dt * f) * v). -/
def LformOfClaim : Form :=
  Form.integral (ScalarExpr.mul
    (ScalarExpr.add (ScalarExpr.coeff Coeff.uPrev)
      (ScalarExpr.mul (ScalarExpr.const dt) (ScalarExpr.coeff Coeff.source)))
    ScalarExpr.test)

/-! ## Semantics of forms

A form denotes a number once every symbol is given a value at each
quadrature point; integrals become weighted sums over the points. Under
this semantics the integral is linear, which is what identifies the
source's integral(dt * g) with the claim's dt * integral(g). -/

/-- Values of all form symbols at one quadrature point, with its weight. -/
structure QuadPt where
  w : ℚ
  uVal : ℚ
  vVal : ℚ
  gradU : ℚ × ℚ
  gradV : ℚ × ℚ
  coeffVal : Coeff → ℚ

/-- Value of a vector subexpression at a quadrature point. -/
def evalVecE (p : QuadPt) : VecExpr → ℚ × ℚ
  | VecExpr.gradTrial => p.gradU
  | VecExpr.gradTest => p.gradV

/-- Value of a scalar subexpression at a quadrature point. -/
def evalScalarE (p : QuadPt) : ScalarExpr → ℚ
  | ScalarExpr.trial => p.uVal
  | ScalarExpr.test => p.vVal
  | ScalarExpr.coeff c => p.coeffVal c
  | ScalarExpr.const q => q
  | ScalarExpr.add x y => evalScalarE p x + evalScalarE p y
  | ScalarExpr.mul x y => evalScalarE p x * evalScalarE p y
  | ScalarExpr.dot x y =>
      (evalVecE p x).1 * (evalVecE p y).1 + (evalVecE p x).2 * (evalVecE p y).2

/-- Value of a form over a list of weighted quadrature points. -/
def evalForm (env : List QuadPt) : Form → ℚ
  | Form.integral e => (env.map (fun p => p.w * evalScalarE p e)).sum
  | Form.add x y => evalForm env x + evalForm env y
  | Form.smul q x => q * evalForm env x

/-! ## Source term and initial condition (cells defining them) -/

/-- The time-dependent source of the source code, TimeDependentSource.eval:
-(x0*x1*(x0-2)*(x1-2) + 2*x0*(x0-2) + 2*x1*(x1-2)) * exp(-t).
The exponential of the external math library is an abstract function ef. -/
def sourceEval (ef : ℚ → ℚ) (t x0 x1 : ℚ) : ℚ :=
  -(x0 * x1 * (x0 - 2) * (x1 - 2) + 2 * x0 * (x0 - 2) + 2 * x1 * (x1 - 2)) * ef (-t)

/-- The source term as the claim words it:
f(x, t) = -exp(-t) * (x0*x1*(x0-2)*(x1-2) + 2*x0*(x0-2) + 2*x1*(x1-2)). -/
def sourceOfClaim (ef : ℚ → ℚ) (t x0 x1 : ℚ) : ℚ :=
  -ef (-t) * (x0 * x1 * (x0 - 2) * (x1 - 2) + 2 * x0 * (x0 - 2) + 2 * x1 * (x1 - 2))

/-- The initial condition of the source code:
initial_condition(x) = x0*x1*(x0-2)*(x1-2). -/
def initial_condition (x0 x1 : ℚ) : ℚ :=
  x0 * x1 * (x0 - 2) * (x1 - 2)

/-- The initial condition as the claim words it. -/
def u0OfClaim (x0 x1 : ℚ) : ℚ :=
  x0 * x1 * (x0 - 2) * (x1 - 2)

/-! ## File effects

The file-touching operations of the notebook: plotter.open_gif before
the loop, plotter.write_frame once inside each iteration, and the XDMF
writes — which are commented out in the source and therefore never
emitted by the model. -/

/-- A file-output effect of the program. -/
inductive Effect where
  | openGif (name : String)
  | writeFrame
  | xdmfWrite (name : String)
deriving DecidableEq

/-- True exactly on the effects that open an output file. -/
def isFileOpen : Effect → Bool
  | Effect.openGif _ => true
  | Effect.writeFrame => false
  | Effect.xdmfWrite _ => false

/-- True exactly on the effects that write an XDMF solution file. -/
def isXdmf : Effect → Bool
  | Effect.openGif _ => false
  | Effect.writeFrame => false
  | Effect.xdmfWrite _ => true

/-! ## The external library as a record of operations

Everything the loop delegates to dolfinx / PETSc / numpy is a field of
Lib; the notebook's own control flow and data flow is the step function
below, translated line by line. Vec is the type of degree-of-freedom
arrays, Mat the type of assembled matrices. -/

/-- Operations supplied by the external library. -/
structure Lib (Vec Mat : Type) where
  /-- fem.Function.interpolate of a pointwise function of (x0, x1). -/
  interp : (ℚ → ℚ → ℚ) → Vec
  /-- np.exp of the external math library. -/
  expFn : ℚ → ℚ
  /-- create_vector(fem.form(L)). -/
  createVec : Vec
  /-- The result of loc_b.set(0): a zeroed degree-of-freedom array. -/
  zeroVec : Vec
  /-- assemble_matrix(fem.form(a)) followed by A.assemble(). -/
  assembleMatrix : Form → Mat
  /-- assemble_vector(b, fem.form(L)) adding into b, given the current
  values of the coefficients u_n and f appearing in L. -/
  assembleVecInto : Vec → Form → Vec → Vec → Vec
  /-- apply_lifting(b, [fem.form(a)], [[bc]]). -/
  applyLifting : Vec → Form → BCSpec → Vec
  /-- b.ghostUpdate(ADD_VALUES, REVERSE). -/
  ghostUpdate : Vec → Vec
  /-- set_bc(b, [bc]). -/
  setBC : Vec → BCSpec → Vec
  /-- solver.solve for the KSP whose operator was set to the given matrix. -/
  solve : Mat → Vec → Vec
  /-- u_sol.x.scatter_forward(). -/
  scatterForward : Vec → Vec

/-- The mutable program state over which the time loop runs. -/
structure SimState (Vec Mat : Type) where
  /-- The scalar time variable t. -/
  t : ℚ
  /-- Degree-of-freedom array of the source function f. -/
  f : Vec
  /-- Degree-of-freedom array of the previous solution u_n. -/
  u_n : Vec
  /-- Degree-of-freedom array of the current solution u_sol. -/
  u_sol : Vec
  /-- The right-hand-side vector b. -/
  b : Vec
  /-- The assembled system matrix A. -/
  A : Mat
  /-- The operator held by the KSP solver (solver.setOperators(A)). -/
  solverMat : Mat
  /-- File effects emitted so far, most recent first. -/
  trace : List Effect

variable {Vec Mat : Type}

/-- The right-hand-side pipeline of one iteration: starting from the
zeroed b, assemble L with the given coefficient values, apply lifting,
ghost-update, and set the boundary condition. -/
def assembledRhs (lib : Lib Vec Mat) (uPrev fVal : Vec) : Vec :=
  lib.setBC (lib.ghostUpdate
    (lib.applyLifting (lib.assembleVecInto lib.zeroVec Lform uPrev fVal) aForm bc)) bc

/-- One iteration of the while loop, line by line from the source:
t += dt; f_expr.t = t; f.interpolate(f_expr.eval); loc_b.set(0);
assemble_vector(b, form(L)); apply_lifting; ghostUpdate; set_bc;
solver.solve(b, u_sol.vector); u_sol.x.scatter_forward();
u_n.x.array[:] = u_sol.x.array[:]; plotter.write_frame(). -/
def step (lib : Lib Vec Mat) (s : SimState Vec Mat) : SimState Vec Mat :=
  let tNew := s.t + dt
  let fNew := lib.interp (fun x0 x1 => sourceEval lib.expFn tNew x0 x1)
  let b1 := lib.zeroVec
  let b2 := lib.assembleVecInto b1 Lform s.u_n fNew
  let b3 := lib.applyLifting b2 aForm bc
  let b4 := lib.ghostUpdate b3
  let b5 := lib.setBC b4 bc
  let uNew := lib.scatterForward (lib.solve s.solverMat b5)
  { s with
      t := tNew
      f := fNew
      b := b5
      u_sol := uNew
      u_n := uNew
      trace := Effect.writeFrame :: s.trace }

/-- The state just before the loop, from the cells preceding it:
t = 0; u_n and u_sol interpolate initial_condition; f interpolates the
source at t = 0; b = create_vector(form(L)); A = assemble_matrix(form(a));
solver.setOperators(A); plotter.open_gif("u_sol.gif"). -/
def initState (lib : Lib Vec Mat) : SimState Vec Mat :=
  { t := 0
    f := lib.interp (fun x0 x1 => sourceEval lib.expFn 0 x0 x1)
    u_n := lib.interp initial_condition
    u_sol := lib.interp initial_condition
    b := lib.createVec
    A := lib.assembleMatrix aForm
    solverMat := lib.assembleMatrix aForm
    trace := [Effect.openGif "u_sol.gif"] }

/-- The time loop: while t < T, run one step. Well-founded on the
number of remaining steps, which is what makes the loop terminate. -/
def runLoop (lib : Lib Vec Mat) (s : SimState Vec Mat) : SimState Vec Mat :=
  if h : s.t < T then runLoop lib (step lib s) else s
termination_by (⌈(T - s.t) / dt⌉).toNat
decreasing_by
  have hdt : (0 : ℚ) < dt := by norm_num [dt, T, num_steps]
  have ht : (step lib s).t = s.t + dt := rfl
  rw [ht]
  have hq : (0 : ℚ) < (T - s.t) / dt := by
    apply div_pos _ hdt
    linarith
  have hceil : (0 : ℤ) < ⌈(T - s.t) / dt⌉ := by
    exact Int.ceil_pos.mpr hq
  have harg : (T - (s.t + dt)) / dt = (T - s.t) / dt - 1 := by
    rw [show T - (s.t + dt) = T - s.t - dt by ring, sub_div, div_self (ne_of_gt hdt)]
  rw [harg, Int.ceil_sub_one]
  omega

/-- The whole run of the program: the setup cells followed by the loop. -/
def simulate (lib : Lib Vec Mat) : SimState Vec Mat :=
  runLoop lib (initState lib)

/-! ## Fallible model of the run

The notebook contains no try/except: a failure raised by a library call
leaves the script unhandled. To state that, the failure-prone library
calls the spec names (mesh construction, assembly, linear solve) return
Except, and the script is the same straight-line composition; the only
way an error is consumed is by aborting the run with it. -/

/-- The external library with fallible mesh construction, assembly and solve. -/
structure LibE (E Vec Mat : Type) where
  /-- mesh.create_rectangle, which may fail. -/
  meshE : MeshSpec → Except E Unit
  /-- fem.Function.interpolate of a pointwise function of (x0, x1). -/
  interp : (ℚ → ℚ → ℚ) → Vec
  /-- np.exp of the external math library. -/
  expFn : ℚ → ℚ
  /-- create_vector(fem.form(L)). -/
  createVec : Vec
  /-- The result of loc_b.set(0). -/
  zeroVec : Vec
  /-- assemble_matrix(fem.form(a)), which may fail. -/
  assembleMatrixE : Form → Except E Mat
  /-- assemble_vector(b, fem.form(L)), which may fail. -/
  assembleVecIntoE : Vec → Form → Vec → Vec → Except E Vec
  /-- apply_lifting(b, [fem.form(a)], [[bc]]). -/
  applyLifting : Vec → Form → BCSpec → Vec
  /-- b.ghostUpdate(ADD_VALUES, REVERSE). -/
  ghostUpdate : Vec → Vec
  /-- set_bc(b, [bc]). -/
  setBC : Vec → BCSpec → Vec
  /-- solver.solve, which may fail. -/
  solveE : Mat → Vec → Except E Vec
  /-- u_sol.x.scatter_forward(). -/
  scatterForward : Vec → Vec

variable {E : Type}

/-- One loop iteration in the fallible model; the notebook code between
the two fallible calls is unchanged, and no branch inspects the error. -/
def stepE (lib : LibE E Vec Mat) (s : SimState Vec Mat) :
    Except E (SimState Vec Mat) :=
  let tNew := s.t + dt
  let fNew := lib.interp (fun x0 x1 => sourceEval lib.expFn tNew x0 x1)
  match lib.assembleVecIntoE lib.zeroVec Lform s.u_n fNew with
  | Except.error e => Except.error e
  | Except.ok b2 =>
    let b5 := lib.setBC (lib.ghostUpdate (lib.applyLifting b2 aForm bc)) bc
    match lib.solveE s.solverMat b5 with
    | Except.error e => Except.error e
    | Except.ok uRaw =>
      let uNew := lib.scatterForward uRaw
      Except.ok { s with
        t := tNew
        f := fNew
        b := b5
        u_sol := uNew
        u_n := uNew
        trace := Effect.writeFrame :: s.trace }

/-- A successful fallible step advances t by dt: needed to see that the
fallible loop still terminates. -/
lemma stepE_ok_t (lib : LibE E Vec Mat) (s s2 : SimState Vec Mat)
    (h : stepE lib s = Except.ok s2) : s2.t = s.t + dt := by
  unfold stepE at h
  dsimp only at h
  split at h
  · exact absurd h (by simp)
  · split at h
    · exact absurd h (by simp)
    · cases h
      rfl

/-- The time loop in the fallible model: an error from a step aborts the
loop with that error; a successful step recurses. -/
def runLoopE (lib : LibE E Vec Mat) (s : SimState Vec Mat) :
    Except E (SimState Vec Mat) :=
  if s.t < T then
    match hs : stepE lib s with
    | Except.error e => Except.error e
    | Except.ok s2 => runLoopE lib s2
  else Except.ok s
termination_by (⌈(T - s.t) / dt⌉).toNat
decreasing_by
  have hdt : (0 : ℚ) < dt := by norm_num [dt, T, num_steps]
  rw [stepE_ok_t lib s s2 hs]
  have hq : (0 : ℚ) < (T - s.t) / dt := by
    apply div_pos _ hdt
    rename_i hcond
    linarith
  have hceil : (0 : ℤ) < ⌈(T - s.t) / dt⌉ := Int.ceil_pos.mpr hq
  have harg : (T - (s.t + dt)) / dt = (T - s.t) / dt - 1 := by
    rw [show T - (s.t + dt) = T - s.t - dt by ring, sub_div, div_self (ne_of_gt hdt)]
  rw [harg, Int.ceil_sub_one]
  omega

/-- The pre-loop state in the fallible model, given the assembled matrix. -/
def initStateE (lib : LibE E Vec Mat) (A0 : Mat) : SimState Vec Mat :=
  { t := 0
    f := lib.interp (fun x0 x1 => sourceEval lib.expFn 0 x0 x1)
    u_n := lib.interp initial_condition
    u_sol := lib.interp initial_condition
    b := lib.createVec
    A := A0
    solverMat := A0
    trace := [Effect.openGif "u_sol.gif"] }

/-- The whole script in the fallible model: mesh construction, matrix
assembly, then the loop; each failure aborts the run with the library's
error, untouched. -/
def scriptE (lib : LibE E Vec Mat) : Except E (SimState Vec Mat) :=
  match lib.meshE domain with
  | Except.error e => Except.error e
  | Except.ok _ =>
    match lib.assembleMatrixE aForm with
    | Except.error e => Except.error e
    | Except.ok A0 => runLoopE lib (initStateE lib A0)

/-! ## Concrete library instances

Used to evaluate the model at concrete inputs (counterexamples and
witnesses); the theorems themselves hold for every library. -/

/-- A concrete total library over ℚ vectors: interpolation samples the
function at the point (1, 1). -/
def libQ : Lib ℚ Unit :=
  { interp := fun g => g 1 1
    expFn := fun _ => 1
    createVec := 0
    zeroVec := 0
    assembleMatrix := fun _ => ()
    assembleVecInto := fun b _ uN fV => b + uN + dt * fV
    applyLifting := fun b _ _ => b
    ghostUpdate := fun b => b
    setBC := fun b _ => b
    solve := fun _ b => b
    scatterForward := fun b => b }

/-- A concrete fallible library whose mesh construction fails with error 7. -/
def libMeshFail : LibE ℕ ℚ Unit :=
  { meshE := fun _ => Except.error 7
    interp := fun g => g 1 1
    expFn := fun _ => 1
    createVec := 0
    zeroVec := 0
    assembleMatrixE := fun _ => Except.ok ()
    assembleVecIntoE := fun b _ uN fV => Except.ok (b + uN + dt * fV)
    applyLifting := fun b _ _ => b
    ghostUpdate := fun b => b
    setBC := fun b _ => b
    solveE := fun _ b => Except.ok b
    scatterForward := fun b => b }

/-! ## Helper lemmas -/

/-- A constant factor inside an integrand moves out of the quadrature sum. -/
lemma sum_map_w_mul_const (env : List QuadPt) (c : ℚ) (g : QuadPt → ℚ) :
    (env.map (fun p => p.w * (c * g p))).sum = c * (env.map (fun p => p.w * g p)).sum := by
  induction env with
  | nil => simp
  | cons p l ih =>
    simp only [List.map_cons, List.sum_cons, ih]
    ring

/-- Invariant of the whole loop run: if k steps remain (s.t = (200-k)*dt),
the loop finishes at t = T having emitted exactly k frames, and the
matrix A and the solver operator come out unchanged. -/
lemma runLoop_master (lib : Lib Vec Mat) :
    ∀ k : ℕ, k ≤ 200 → ∀ s : SimState Vec Mat,
      s.t = ((200 - k : ℕ) : ℚ) * dt →
      (runLoop lib s).t = T
      ∧ (runLoop lib s).trace = List.replicate k Effect.writeFrame ++ s.trace
      ∧ (runLoop lib s).A = s.A
      ∧ (runLoop lib s).solverMat = s.solverMat := by
  intro k
  induction k with
  | zero =>
    intro _ s hs
    have hT : s.t = T := by
      rw [hs]
      norm_num [dt, T, num_steps]
    rw [runLoop, dif_neg (by rw [hT]; exact lt_irrefl T)]
    simp [hT]
  | succ k ih =>
    intro hk s hs
    have hk' : k ≤ 199 := by omega
    have hcast : ((200 - (k + 1) : ℕ) : ℚ) = 199 - (k : ℚ) := by
      rw [show (200 - (k + 1) : ℕ) = 199 - k by omega, Nat.cast_sub hk']
      norm_num
    have hk0 : (0 : ℚ) ≤ (k : ℚ) := Nat.cast_nonneg k
    have hlt : s.t < T := by
      rw [hs, hcast]
      norm_num [dt, T, num_steps]
      linarith
    have hstep : (step lib s).t = ((200 - k : ℕ) : ℚ) * dt := by
      have h2 : ((200 - k : ℕ) : ℚ) = 200 - (k : ℚ) := by
        rw [Nat.cast_sub (by omega)]
        norm_num
      show s.t + dt = _
      rw [hs, hcast, h2]
      ring
    obtain ⟨h1, h2, h3, h4⟩ := ih (by omega) (step lib s) hstep
    rw [runLoop, dif_pos hlt]
    refine ⟨h1, ?_, h3, h4⟩
    rw [h2]
    show List.replicate k Effect.writeFrame ++ Effect.writeFrame :: s.trace = _
    rw [show Effect.writeFrame :: s.trace =
          [Effect.writeFrame] ++ s.trace from rfl,
        ← List.append_assoc, ← List.replicate_succ' k Effect.writeFrame]

/-! ## The claims -/

/-- Claim C1: every pass of the time loop solves the backward-Euler
Crouzeix-Raviart system: the matrix is assembled from the bilinear form
integral(u*v) + dt*integral(grad u . grad v) (the source writes the dt
inside the integral; under the quadrature semantics the two forms agree
on every environment), the right-hand side is the linear form
integral((u_n + dt*f)*v), and the function space is degree-1 CR on the
triangulated rectangle (0,2) x (0,2). -/
theorem heat_C1 :
    (∀ env : List QuadPt, evalForm env aForm = evalForm env aFormOfClaim)
    ∧ Lform = LformOfClaim
    ∧ V = { mesh := { p0x := 0, p0y := 0, p1x := 2, p1y := 2, nx := 64, ny := 64,
                      cell := CellType.triangle },
            family := FamilyKind.CR, degree := 1 }
    ∧ (∀ (Vec Mat : Type) (lib : Lib Vec Mat) (s : SimState Vec Mat),
        (initState lib).A = lib.assembleMatrix aForm
        ∧ (initState lib).solverMat = lib.assembleMatrix aForm
        ∧ (step lib s).solverMat = s.solverMat
        ∧ (step lib s).u_sol = lib.scatterForward (lib.solve s.solverMat ((step lib s).b))
        ∧ (step lib s).b = assembledRhs lib s.u_n ((step lib s).f)) := by
  refine ⟨?_, rfl, rfl, fun Vec Mat lib s => ⟨rfl, rfl, rfl, rfl, rfl⟩⟩
  intro env
  simp only [aForm, aFormOfClaim, evalForm, evalScalarE]
  rw [sum_map_w_mul_const]

/-- Claim C2 (the claim is right, the code is not): the source computes
fdim = domain.topology.dim - 2 = 0, the dimension of vertices, where its
own comment and the claim describe boundary facets of dimension
tdim - 1 = 1; a Crouzeix-Raviart space carries no degrees of freedom on
dimension-0 entities, so the dimension actually passed constrains none. -/
theorem heat_C2 :
    fdim = 0
    ∧ facetDimOfSpec = 1
    ∧ fdim ≠ facetDimOfSpec
    ∧ bc.entityDim = fdim
    ∧ crDofsPerEntity bc.entityDim = 0
    ∧ crDofsPerEntity facetDimOfSpec = 1 := by
  refine ⟨rfl, rfl, by decide, rfl, rfl, rfl⟩

/-- Claim C3: in every iteration, after the linear solve the previous
solution u_n is set equal to the current solution u_sol by the single
final assignment; the right-hand-side assembly earlier in the iteration
still reads the incoming u_n, and nothing else writes it. -/
theorem heat_C3 (Vec Mat : Type) (lib : Lib Vec Mat) (s : SimState Vec Mat) :
    (step lib s).u_n = (step lib s).u_sol
    ∧ (step lib s).u_sol = lib.scatterForward (lib.solve s.solverMat ((step lib s).b))
    ∧ (step lib s).b = assembledRhs lib s.u_n ((step lib s).f) :=
  ⟨rfl, rfl, rfl⟩

/-- Claim C4: each iteration first advances t by dt and reinterpolates
the source f at the advanced time, so the system of step n uses the
source at t_(n+1); and the interpolated formula is exactly
f(x, t) = -exp(-t) * (x0*x1*(x0-2)*(x1-2) + 2*x0*(x0-2) + 2*x1*(x1-2)). -/
theorem heat_C4 (Vec Mat : Type) (lib : Lib Vec Mat) (s : SimState Vec Mat) :
    (step lib s).t = s.t + dt
    ∧ (step lib s).f = lib.interp (fun x0 x1 => sourceEval lib.expFn (s.t + dt) x0 x1)
    ∧ (step lib s).b = assembledRhs lib s.u_n ((step lib s).f)
    ∧ ∀ (ef : ℚ → ℚ) (t x0 x1 : ℚ), sourceEval ef t x0 x1 = sourceOfClaim ef t x0 x1 := by
  refine ⟨rfl, rfl, rfl, fun ef t x0 x1 => ?_⟩
  unfold sourceEval sourceOfClaim
  ring

/-- Claim C5: the while loop (t < T, with t += dt at the start of each
iteration, dt = T / num_steps > 0, T = 3, num_steps = 200) terminates —
runLoop is totally defined by well-founded recursion — and in exact
arithmetic it runs exactly 200 iterations (one frame written per
iteration counts them) and exits with t = T. -/
theorem heat_C5 (Vec Mat : Type) (lib : Lib Vec Mat) :
    0 < dt
    ∧ dt = T / num_steps
    ∧ T = 3
    ∧ num_steps = 200
    ∧ (simulate lib).t = T
    ∧ (simulate lib).trace.count Effect.writeFrame = num_steps := by
  have hm := runLoop_master lib 200 (by norm_num) (initState lib) (by norm_num [initState])
  refine ⟨by norm_num [dt, T, num_steps], rfl, rfl, rfl, hm.1, ?_⟩
  show (runLoop lib (initState lib)).trace.count Effect.writeFrame = num_steps
  rw [hm.2.1, show (initState lib).trace = [Effect.openGif "u_sol.gif"] from rfl,
    List.count_append, List.count_replicate_self]
  rfl

/-- Claim C6 (amended): the matrix A is assembled once before the loop
and neither A nor the solver operator is modified by any iteration;
besides b, f, u_sol and u_n, however, the scalar time t (and the frame
trace) also change each iteration, which the claim's enumeration
omitted. -/
theorem heat_C6 (Vec Mat : Type) (lib : Lib Vec Mat) (s : SimState Vec Mat) :
    (step lib s).A = s.A
    ∧ (step lib s).solverMat = s.solverMat
    ∧ (simulate lib).A = lib.assembleMatrix aForm
    ∧ (simulate lib).solverMat = lib.assembleMatrix aForm := by
  have hm := runLoop_master lib 200 (by norm_num) (initState lib) (by norm_num [initState])
  exact ⟨rfl, rfl, hm.2.2.1, hm.2.2.2⟩

/-- Claim C6, counterexample to the claim as stated: the time variable t
is not in the claim's list of things that change across a time step, yet
a step changes it (shown on a concrete library over ℚ). -/
theorem heat_C6_cex : (step libQ (initState libQ)).t ≠ (initState libQ).t := by
  show (0 : ℚ) + dt ≠ 0
  norm_num [dt, T, num_steps]

/-- Claim C7: before the loop, u_n and u_sol are both obtained by
interpolating the same initial condition u0(x) = x0*x1*(x0-2)*(x1-2)
into V, so at t = 0 the two functions are equal. -/
theorem heat_C7 (Vec Mat : Type) (lib : Lib Vec Mat) :
    (initState lib).u_n = (initState lib).u_sol
    ∧ (initState lib).u_n = lib.interp initial_condition
    ∧ (initState lib).t = 0
    ∧ initial_condition = u0OfClaim :=
  ⟨rfl, rfl, rfl, rfl⟩

/-- Claim C8: the only file the program opens for output is u_sol.gif;
each iteration writes exactly one frame (200 in total over the run), and
no XDMF solution file is ever written, those calls being commented out. -/
theorem heat_C8 (Vec Mat : Type) (lib : Lib Vec Mat) (s : SimState Vec Mat) :
    (step lib s).trace = Effect.writeFrame :: s.trace
    ∧ (simulate lib).trace
        = List.replicate 200 Effect.writeFrame ++ [Effect.openGif "u_sol.gif"]
    ∧ (simulate lib).trace.filter isFileOpen = [Effect.openGif "u_sol.gif"]
    ∧ (simulate lib).trace.filter isXdmf = []
    ∧ (simulate lib).trace.count Effect.writeFrame = 200 := by
  have hm := runLoop_master lib 200 (by norm_num) (initState lib) (by norm_num [initState])
  have htr : (simulate lib).trace
      = List.replicate 200 Effect.writeFrame ++ [Effect.openGif "u_sol.gif"] := by
    show (runLoop lib (initState lib)).trace = _
    rw [hm.2.1]
    rfl
  have hfil : ∀ (p : Effect → Bool), p Effect.writeFrame = false →
      ∀ n : ℕ, (List.replicate n Effect.writeFrame).filter p = [] := by
    intro p hp n
    induction n with
    | zero => rfl
    | succ n ih => rw [List.replicate_succ, List.filter_cons_of_neg (by simp [hp]), ih]
  refine ⟨rfl, htr, ?_, ?_, ?_⟩
  · rw [htr, List.filter_append, hfil isFileOpen rfl]
    rfl
  · rw [htr, List.filter_append, hfil isXdmf rfl]
    rfl
  · rw [htr, List.count_append, List.count_replicate_self]
    rfl

/-- Claim C9: the script has no error handling of its own: if mesh
construction fails, the run fails with that same error; if matrix
assembly fails (mesh having succeeded), the run fails with that error;
and if any iteration of the time loop fails (in its vector assembly or
its linear solve, at whatever state with t < T the loop has reached),
the loop — and with it the run — fails with that same error, untouched:
nothing is caught, transformed or retried. -/
theorem heat_C9 (E Vec Mat : Type) (lib : LibE E Vec Mat) (e : E) :
    (lib.meshE domain = Except.error e → scriptE lib = Except.error e)
    ∧ (∀ u : Unit, lib.meshE domain = Except.ok u →
        lib.assembleMatrixE aForm = Except.error e →
        scriptE lib = Except.error e)
    ∧ (∀ s : SimState Vec Mat, s.t < T →
        stepE lib s = Except.error e →
        runLoopE lib s = Except.error e)
    ∧ (∀ (u : Unit) (A0 : Mat), lib.meshE domain = Except.ok u →
        lib.assembleMatrixE aForm = Except.ok A0 →
        scriptE lib = runLoopE lib (initStateE lib A0)) := by
  have hloop : ∀ s : SimState Vec Mat, s.t < T →
      stepE lib s = Except.error e → runLoopE lib s = Except.error e := by
    intro s hlt hstep
    rw [runLoopE.eq_def, if_pos hlt]
    split
    · rename_i e2 heq
      rw [hstep] at heq
      injection heq with h2
      rw [h2]
    · rename_i s2 heq
      rw [hstep] at heq
      exact absurd heq (by simp)
  refine ⟨?_, ?_, hloop, ?_⟩
  · intro h
    unfold scriptE
    rw [h]
  · intro u hm hA
    unfold scriptE
    rw [hm, hA]
  · intro u A0 hm hA
    unfold scriptE
    rw [hm, hA]

/-- Claim C9, witness: on a concrete library whose mesh construction
fails with error 7, the whole script fails with error 7. -/
theorem heat_C9_witness : scriptE libMeshFail = Except.error 7 :=
  (heat_C9 ℕ ℚ Unit libMeshFail 7).1 rfl

/-- Claim C10: each iteration rebuilds b starting from the zeroed local
vector (loc_b.set(0)), so the assembled right-hand side of a step does
not depend on the b (or u_sol) left by earlier iterations — only on the
incoming u_n and the freshly interpolated f. -/
theorem heat_C10 (Vec Mat : Type) (lib : Lib Vec Mat) (s : SimState Vec Mat)
    (bAlt uAlt : Vec) :
    (step lib { s with b := bAlt, u_sol := uAlt }).b = (step lib s).b
    ∧ (step lib s).b
        = lib.setBC (lib.ghostUpdate (lib.applyLifting
            (lib.assembleVecInto lib.zeroVec Lform s.u_n ((step lib s).f)) aForm bc)) bc :=
  ⟨rfl, rfl⟩

end HeatCR
